import Mathlib

/-!
Shallow embedding of the MATLAB Workspace Viewer extension.

The embedded pieces are:
* `MatlabConnection.getWorkspaceVariables` (src/src/matlabConnection.ts): reads the
  snapshot file, parses JSON, returns `data.variables || []`, and catches every error.
* `WorkspaceItem` and its `getDescription` (workspaceProvider): the description shown
  next to each variable, including the `\[(\d+)\s+(\d+)\]` size regex.
* `MatlabWorkspaceProvider.getChildren` and `formatValue`.
* the terminal commands `clearWorkspace`, `deleteVariable`, `triggerWorkspaceExport`,
  modelled as the list of UI effects they perform.
* the value emission of the generated `export_workspace.m` MATLAB script.
* the `trySendSetup` retry loop of `activate` (extension entry point).

JavaScript strings are modelled as Lean `String`s; `.length`, `.substring` and
MATLAB `val(1:n)` count characters (identical to UTF-16 code units on the
ASCII/BMP data these programs exchange). JS truthiness of an optional string
(`undefined`, `null` and `""` are falsy) is `jsTruthy`.
-/

namespace MatlabViewer

/-- A character matched by the regex class \d. -/
def isDigitChar (c : Char) : Bool := '0' ≤ c && c ≤ '9'

/-- A character matched by the regex class \s (ASCII part; the snapshot sizes
produced by mat2str only ever contain plain spaces). -/
def isSpaceChar (c : Char) : Bool :=
  c = ' ' || c = '\t' || c = '\n' || c = '\r' || c = '\x0b' || c = '\x0c'

/-- Numeric value of a digit string, as `parseInt` computes it on an all-digit
group (digit strings here are small, so JS float rounding never enters). -/
def digitsVal (ds : List Char) : Nat := ds.foldl (fun n c => 10 * n + (c.toNat - 48)) 0

/-- Leftmost match of the regex `\[(\d+)\s+(\d+)\]` in a character list, returning
`parseInt` of the two captured groups. Because the character classes `\d`, `\s`
and the literals are disjoint, the backtracking regex engine accepts at a given
start position exactly when the maximal runs fit, so scanning with maximal runs
is the exact regex semantics. -/
def matchDimsAux : List Char → Option (Nat × Nat)
  | [] => none
  | c :: rest =>
    if c = '[' then
      let d1 := rest.takeWhile isDigitChar
      let r1 := rest.drop d1.length
      let sp := r1.takeWhile isSpaceChar
      let r2 := r1.drop sp.length
      let d2 := r2.takeWhile isDigitChar
      let r3 := r2.drop d2.length
      if d1 ≠ [] ∧ sp ≠ [] ∧ d2 ≠ [] ∧ r3.head? = some ']' then
        some (digitsVal d1, digitsVal d2)
      else
        matchDimsAux rest
    else
      matchDimsAux rest

/-- `this.size.match(/\[(\d+)\s+(\d+)\]/)` of `WorkspaceItem.getDescription`,
with `parseInt` already applied to the two groups. -/
def sizeMatch2D (s : String) : Option (Nat × Nat) := matchDimsAux s.toList

/-- First `n` characters of a string: JS `substring(0, n)` (and MATLAB
`val(1:n)` on a char row vector) for the BMP text this program handles. -/
def takeChars (s : String) (n : Nat) : String := String.mk (s.toList.take n)

/-- A JSON value found in a record's `value` field, as `formatValue` inspects it:
either a JS array (its elements already rendered to strings, as
`Array.prototype.join` renders them) or any other defined non-null value
(rendered by `String(val)`, which is the identity on the strings the producer
writes). -/
inductive MValue
  | prim (s : String)
  | arr (elems : List String)
deriving DecidableEq, Repr

/-- One record of the snapshot file: the `MatlabVariable` interface of
matlabConnection.ts, fields `name`, `size`, `class`, optional `value`. -/
structure MatlabVariable where
  name : String
  size : String
  «class» : String
  value : Option MValue
deriving DecidableEq, Repr

/-- The parsed snapshot object: field `variables` (absent or falsy modelled as
`none`) and field `timestamp`. -/
structure SnapshotData where
  «variables» : Option (List MatlabVariable)
  timestamp : Option String
deriving DecidableEq, Repr

/-- State of the snapshot file as `getWorkspaceVariables` can encounter it:
no configured path (`this.workspaceFile` null), file absent, file present but
`JSON.parse` throws, or file present with parsed content. -/
inductive FileState
  | noWorkspaceFile
  | missing
  | unparsable
  | parsed (data : SnapshotData)
deriving DecidableEq, Repr

/-- The body of the `try` block of `getWorkspaceVariables`: `.error` marks the
exception `JSON.parse` throws on unparsable content; the missing-file and
no-path cases return `[]` directly. -/
def parseWorkspaceFile : FileState → Except String (List MatlabVariable)
  | .noWorkspaceFile => .ok []
  | .missing => .ok []
  | .unparsable => .error "SyntaxError: Unexpected token in JSON"
  | .parsed d => .ok (d.«variables».getD [])

/-- `MatlabConnection.getWorkspaceVariables`: the `catch` clause turns any
thrown error into the empty list. -/
def getWorkspaceVariables (f : FileState) : List MatlabVariable :=
  match parseWorkspaceFile f with
  | .ok vs => vs
  | .error _ => []

/-- `MatlabWorkspaceProvider.formatValue`: empty string for undefined/null,
preview of at most `maxPreview` elements for arrays, 97 characters plus "..."
for strings longer than 100 characters. -/
def formatValue (value : Option MValue) (maxPreview : Nat) : String :=
  match value with
  | none => ""
  | some (.arr xs) =>
    if xs.length > maxPreview then
      "[" ++ String.intercalate ", " (xs.take maxPreview) ++ ", ...]"
    else
      "[" ++ String.intercalate ", " xs ++ "]"
  | some (.prim s) =>
    if s.length > 100 then takeChars s 97 ++ "..." else s

/-- JS truthiness of an optional string: `undefined` and `""` are falsy. -/
def jsTruthy : Option String → Bool
  | none => false
  | some s => !s.isEmpty

/-- Rendering of a possibly-undefined string inside a template literal. -/
def jsStr : Option String → String
  | none => "undefined"
  | some s => s

/-- `WorkspaceItem.getDescription`: char/string classes show their value (or the
size/type fallback when the value is falsy); other classes with truthy value and
size try the 2-D size regex, showing the value for 1x1 non-struct non-cell and a
"RxC type" summary otherwise; everything else falls back to
`this.value || size type`. -/
def getDescription (value type size : Option String) : String :=
  if type = some "char" ∨ type = some "string" then
    if jsTruthy value then value.getD "" else jsStr size ++ " " ++ jsStr type
  else
    let fallback := if jsTruthy value then value.getD "" else jsStr size ++ " " ++ jsStr type
    if jsTruthy value && jsTruthy size then
      match sizeMatch2D (size.getD "") with
      | some (rows, cols) =>
        if rows = 1 ∧ cols = 1 ∧ type ≠ some "struct" ∧ type ≠ some "cell" then
          value.getD ""
        else
          toString rows ++ "x" ++ toString cols ++ " " ++ jsStr type
      | none => fallback
    else fallback

/-- A tree item of the workspace view, with the fields the constructor stores
and the description it computes (only when `variableName` is truthy). -/
structure WorkspaceItem where
  label : String
  variableName : Option String
  value : Option String
  type : Option String
  size : Option String
  description : Option String
deriving DecidableEq, Repr

/-- The `WorkspaceItem` constructor: stores its arguments and computes the
description exactly when `variableName` is truthy. -/
def WorkspaceItem.make (label : String) (variableName value type size : Option String) :
    WorkspaceItem :=
  { label := label, variableName := variableName, value := value, type := type, size := size,
    description := if jsTruthy variableName then some (getDescription value type size) else none }

@[simp] theorem WorkspaceItem.make_label (l vn v t s) :
    (WorkspaceItem.make l vn v t s).label = l := rfl

@[simp] theorem WorkspaceItem.make_variableName (l vn v t s) :
    (WorkspaceItem.make l vn v t s).variableName = vn := rfl

@[simp] theorem WorkspaceItem.make_description (l vn v t s) :
    (WorkspaceItem.make l vn v t s).description =
      if jsTruthy vn then some (getDescription v t s) else none := rfl

/-- The item `getChildren` builds for one variable record:
`new WorkspaceItem(v.name, None, v.name, formatValue(v, maxArrayPreview), v.class, v.size)`. -/
def toWorkspaceItem (maxArrayPreview : Nat) (v : MatlabVariable) : WorkspaceItem :=
  WorkspaceItem.make v.name (some v.name) (some (formatValue v.value maxArrayPreview))
    (some v.«class») (some v.size)

/-- `MatlabWorkspaceProvider.getChildren`: children of an element are `[]`; at
the root it reads the variables, shows the placeholder item when there are
none, and otherwise maps each record to its item. -/
def getChildren (element : Option WorkspaceItem) (file : FileState) (maxArrayPreview : Nat) :
    List WorkspaceItem :=
  match element with
  | some _ => []
  | none =>
    let «variables» := getWorkspaceVariables file
    if «variables».length = 0 then
      [WorkspaceItem.make "No variables in workspace" none none none none]
    else
      «variables».map (toWorkspaceItem maxArrayPreview)

/-- A VSCode terminal as the connection sees it: only its name matters. -/
structure Terminal where
  name : String
deriving DecidableEq, Repr

/-- JS `String.prototype.toLowerCase`, character by character. -/
def jsToLowerCase (s : String) : String := String.mk (s.toList.map Char.toLower)

/-- JS `String.prototype.endsWith` (suffix test). -/
def strEndsWith (s sub : String) : Bool := sub.toList.isSuffixOf s.toList

/-- Scan for `needle` as a contiguous run inside the haystack. -/
def strIncludesAux (needle : List Char) : List Char → Bool
  | [] => needle.isEmpty
  | c :: rest => needle.isPrefixOf (c :: rest) || strIncludesAux needle rest

/-- JS `String.prototype.includes` (substring containment). -/
def strIncludes (s sub : String) : Bool := strIncludesAux sub.toList s.toList

/-- `terminals.find(t => t.name.toLowerCase().includes('matlab'))`. -/
def findMatlabTerminal (terminals : List Terminal) : Option Terminal :=
  terminals.find? (fun t => strIncludes (jsToLowerCase t.name) "matlab")

/-- An observable effect of the connection's terminal commands: text typed into
a terminal, a terminal being revealed, a message box, or a `setTimeout` that
will call `triggerWorkspaceExport` after the given delay. -/
inductive UiEffect
  | sendText (terminalName text : String)
  | showTerminal (terminalName : String)
  | showErrorMessage (msg : String)
  | showInformationMessage (msg : String)
  | scheduleExportAfter (ms : Nat)
deriving DecidableEq, Repr

/-- `MatlabConnection.triggerWorkspaceExport`, as the list of effects it
performs, given whether a workspace folder is open and the open terminals. -/
def triggerWorkspaceExport (hasWorkspaceFolder : Bool) (terminals : List Terminal) :
    List UiEffect :=
  if !hasWorkspaceFolder then
    [.showErrorMessage "No workspace folder open"]
  else
    match findMatlabTerminal terminals with
    | none =>
      [.showInformationMessage
        "No MATLAB terminal found. Please run MATLAB in the VSCode terminal first."]
    | some t =>
      [.sendText t.name "addpath('.vscode'); export_workspace();",
       .showTerminal t.name,
       .showInformationMessage "Workspace export command sent to MATLAB"]

/-- `MatlabConnection.clearWorkspace`: sends `clear all` to the MATLAB terminal
and schedules a workspace export 500 ms later; error message when none. -/
def clearWorkspace (terminals : List Terminal) : List UiEffect :=
  match findMatlabTerminal terminals with
  | none => [.showErrorMessage "No MATLAB terminal found"]
  | some t => [.sendText t.name "clear all", .scheduleExportAfter 500]

/-- `MatlabConnection.deleteVariable`: sends `clear <name>` to the MATLAB
terminal and schedules a workspace export 500 ms later; error message when
none. -/
def deleteVariable (terminals : List Terminal) (variableName : String) : List UiEffect :=
  match findMatlabTerminal terminals with
  | none => [.showErrorMessage "No MATLAB terminal found"]
  | some t => [.sendText t.name ("clear " ++ variableName), .scheduleExportAfter 500]

/-- The terminal texts sent by a list of effects, with their target terminal. -/
def sentCommands (effects : List UiEffect) : List (String × String) :=
  effects.filterMap (fun e =>
    match e with
    | .sendText n s => some (n, s)
    | _ => none)

/-- A MATLAB value as the generated `export_workspace.m` script distinguishes
them when filling `varData(i).value`. Numeric and logical values carry their
class name, element count and `mat2str` rendering; text values are char row
vectors (where MATLAB `length` is the character count and `val(1:100)` the
first 100 characters). -/
inductive MatlabValue
  | numericOrLogical (cls : String) (numel : Nat) (mat2strOut : String)
  | charRow (s : String)
deriving DecidableEq, Repr

/-- The `value` field emitted by `export_workspace.m` for a numeric/logical or
text variable: `mat2str(val)` for at most 10 elements, a
`sprintf('%s [%d elements]', ...)` summary otherwise; the text verbatim for at
most 100 characters, `[char(val(1:100)), '...']` otherwise. -/
def exportedValueField : MatlabValue → String
  | .numericOrLogical cls n printed =>
    if n ≤ 10 then printed else cls ++ " [" ++ toString n ++ " elements]"
  | .charRow s =>
    if s.length ≤ 100 then s else takeChars s 100 ++ "..."

/-- An observable action of the `trySendSetup` retry loop in `activate`:
sending `addpath('.vscode'); setup_auto_export` after the given `setTimeout`
delay, or showing the auto-setup-failed warning. -/
inductive SetupAction
  | sendSetupCommand (delayMs : Nat)
  | showSetupWarning
deriving DecidableEq, Repr

/-- `const maxAttempts = 10` of the auto-setup loop. -/
def maxAttempts : Nat := 10

/-- The `trySendSetup` loop of `activate`. `completedAt k` tells whether the
file watcher (or the Disable-Auto-Setup button) had set `setupComplete` by the
time attempt `k`'s timeout callback fires, in which case the callback does
nothing and the loop ends. Otherwise each round increments `attemptCount`,
waits `2000 + attemptCount * 1000` ms, sends the setup command and recurses;
entering with `setupComplete` still false and the attempts exhausted shows the
warning. -/
def trySendSetup (completedAt : Nat → Bool) (attemptCount : Nat) (setupComplete : Bool) :
    List SetupAction :=
  if h : setupComplete = true ∨ maxAttempts ≤ attemptCount then
    if setupComplete = false ∧ maxAttempts ≤ attemptCount then [.showSetupWarning] else []
  else
    let ac := attemptCount + 1
    if completedAt ac then []
    else .sendSetupCommand (2000 + ac * 1000) :: trySendSetup completedAt ac false
termination_by maxAttempts - attemptCount
decreasing_by
  simp only [not_or] at h
  omega

/-- Number of setup commands sent by a run of the loop. -/
def countSends (actions : List SetupAction) : Nat :=
  (actions.filter (fun a =>
    match a with
    | .sendSetupCommand _ => true
    | .showSetupWarning => false)).length

/-- The `setTimeout` delays of the setup commands sent by a run of the loop. -/
def sendDelays (actions : List SetupAction) : List Nat :=
  actions.filterMap (fun a =>
    match a with
    | .sendSetupCommand d => some d
    | .showSetupWarning => none)

/-! Helper lemmas shared by the claim theorems. -/

theorem toWorkspaceItem_variableName (mp : Nat) (v : MatlabVariable) :
    (toWorkspaceItem mp v).variableName = some v.name := rfl

theorem sizeMatch2D_ne_empty {s : String} {p : Nat × Nat} (h : sizeMatch2D s = some p) :
    s ≠ "" := by
  intro hs
  subst hs
  rw [show sizeMatch2D "" = none from rfl] at h
  exact Option.noConfusion h

theorem toWorkspaceItem_description (mp : Nat) (v : MatlabVariable) (h : v.name ≠ "") :
    (toWorkspaceItem mp v).description
      = some (getDescription (some (formatValue v.value mp)) (some v.«class») (some v.size)) := by
  simp [toWorkspaceItem, WorkspaceItem.make, jsTruthy, String.isEmpty_iff, h]

theorem takeChars_length (s : String) (n : Nat) :
    (takeChars s n).length = min n s.length := by
  show (s.toList.take n).length = min n s.length
  rw [List.length_take]
  rfl

theorem string_append_dots_ne (x : String) : x ++ "..." ≠ "" := by
  intro h
  have h2 := congrArg String.data h
  simp [String.data_append] at h2

theorem isEmpty_false_of_ne {s : String} (h : s ≠ "") : s.isEmpty = false := by
  rcases hb : s.isEmpty with _ | _
  · rfl
  · exact absurd ((String.isEmpty_iff s).mp hb) h

/-- C1: for every snapshot whose parsed JSON has a `variables` array `vs`, the
root call of `getChildren` displays exactly one variable record per element of
`vs`, in the same order: the items carrying a variable name are exactly the
mapped items of `vs` (the empty-workspace placeholder carries none), their
count is `vs.length`, and for nonempty `vs` the whole returned list is the
element-wise image of `vs`. -/
theorem getChildren_count_eq_variables_length
    (d : SnapshotData) (vs : List MatlabVariable) (mp : Nat)
    (hv : d.«variables» = some vs) :
    ((getChildren none (.parsed d) mp).filter (fun it => it.variableName.isSome))
        = vs.map (toWorkspaceItem mp)
    ∧ ((getChildren none (.parsed d) mp).filter (fun it => it.variableName.isSome)).length
        = vs.length
    ∧ (vs ≠ [] → getChildren none (.parsed d) mp = vs.map (toWorkspaceItem mp)) := by
  have hg : getWorkspaceVariables (.parsed d) = vs := by
    simp [getWorkspaceVariables, parseWorkspaceFile, hv]
  have hfilter : ∀ ws : List MatlabVariable,
      (ws.map (toWorkspaceItem mp)).filter (fun it => it.variableName.isSome)
        = ws.map (toWorkspaceItem mp) := by
    intro ws
    apply List.filter_eq_self.mpr
    intro a ha
    obtain ⟨v, _, rfl⟩ := List.mem_map.mp ha
    rfl
  cases vs with
  | nil =>
    refine ⟨?_, ?_, ?_⟩ <;>
      simp [getChildren, hg, WorkspaceItem.make]
  | cons a l =>
    have hlist : getChildren none (.parsed d) mp = (a :: l).map (toWorkspaceItem mp) := by
      simp [getChildren, hg]
    refine ⟨?_, ?_, fun _ => hlist⟩
    · rw [hlist, hfilter]
    · rw [hlist, hfilter, List.length_map]

theorem getChildren_count_eq_variables_length_witness :
    ((getChildren none
        (.parsed ⟨some [⟨"a", "[1 1]", "double", some (.prim "1")⟩,
                        ⟨"b", "[1 2]", "double", some (.prim "[1 2]")⟩], some "t"⟩) 5).filter
          (fun it => it.variableName.isSome)).length = 2 :=
  (getChildren_count_eq_variables_length
      ⟨some [⟨"a", "[1 1]", "double", some (.prim "1")⟩,
             ⟨"b", "[1 2]", "double", some (.prim "[1 2]")⟩], some "t"⟩
      [⟨"a", "[1 1]", "double", some (.prim "1")⟩,
       ⟨"b", "[1 2]", "double", some (.prim "[1 2]")⟩] 5 rfl).2.1

/-- C2: a missing snapshot file and an unparsable snapshot file both make
`getWorkspaceVariables` return the empty record list; the `JSON.parse`
exception of the unparsable case (explicit in `parseWorkspaceFile`) is caught
rather than propagated. -/
theorem getWorkspaceVariables_missing_unparsable
    (f : FileState) (h : f = .missing ∨ f = .unparsable) :
    getWorkspaceVariables f = [] := by
  rcases h with rfl | rfl <;> rfl

theorem getWorkspaceVariables_missing_unparsable_witness :
    getWorkspaceVariables .missing = [] ∧ getWorkspaceVariables .unparsable = [] :=
  ⟨getWorkspaceVariables_missing_unparsable _ (Or.inl rfl),
   getWorkspaceVariables_missing_unparsable _ (Or.inr rfl)⟩

/-- C5: a snapshot parsing to an empty `variables` array makes the root call of
`getChildren` return exactly one placeholder item labelled
"No variables in workspace", not an empty list. -/
theorem getChildren_empty_placeholder (ts : Option String) (mp : Nat) :
    getChildren none (.parsed ⟨some [], ts⟩) mp
        = [WorkspaceItem.make "No variables in workspace" none none none none]
    ∧ (getChildren none (.parsed ⟨some [], ts⟩) mp).length = 1
    ∧ (getChildren none (.parsed ⟨some [], ts⟩) mp).map (fun it => it.label)
        = ["No variables in workspace"] :=
  ⟨rfl, rfl, rfl⟩

/-- C8: `formatValue` on an array value truncates to the configured preview
length: with more than `maxPreview` elements it shows the first `maxPreview`
joined by ", " inside brackets followed by ", ..."; otherwise it shows all
elements joined by ", " inside brackets. -/
theorem formatValue_array_preview (xs : List String) (mp : Nat) :
    (xs.length > mp → formatValue (some (.arr xs)) mp
        = "[" ++ String.intercalate ", " (xs.take mp) ++ ", ...]")
    ∧ (xs.length ≤ mp → formatValue (some (.arr xs)) mp
        = "[" ++ String.intercalate ", " xs ++ "]") := by
  constructor <;> intro h
  · simp [formatValue, h]
  · simp [formatValue, Nat.not_lt.mpr h]

theorem formatValue_array_preview_witness :
    formatValue (some (.arr ["1", "2", "3"])) 2 = "[1, 2, ...]"
    ∧ formatValue (some (.arr ["1", "2", "3"])) 5 = "[1, 2, 3]" :=
  ⟨(formatValue_array_preview ["1", "2", "3"] 2).1 (by decide),
   (formatValue_array_preview ["1", "2", "3"] 5).2 (by decide)⟩

/-- C3 counterexample: a char record whose value is the empty string (a value
string of length 0 ≤ 100) is displayed as "[0 0] char", not as its value
verbatim, because the empty string is falsy in `this.value || ...`. -/
theorem char_empty_value_not_verbatim :
    ((getChildren none
        (.parsed ⟨some [⟨"s", "[0 0]", "char", some (.prim "")⟩], some "t"⟩) 5).map
          (fun it => it.description)) = [some "[0 0] char"]
    ∧ ("[0 0] char" : String) ≠ "" :=
  ⟨rfl, by decide⟩

/-- C3 amended: for a record with nonempty name whose class is 'char' or
'string' and whose value is a nonempty string `s`: if `s` has length ≤ 100 the
displayed description is `s` verbatim, and if `s` has length > 100 it is the
first 97 characters of `s` followed by "..." (an empty value string instead
falls back to "size class"). -/
theorem char_value_display (v : MatlabVariable) (s : String) (mp : Nat)
    (hname : v.name ≠ "") (hcls : v.«class» = "char" ∨ v.«class» = "string")
    (hval : v.value = some (.prim s)) :
    (s ≠ "" → s.length ≤ 100 → (toWorkspaceItem mp v).description = some s)
    ∧ (s.length > 100 →
        (toWorkspaceItem mp v).description = some (takeChars s 97 ++ "...")) := by
  constructor
  · intro hs hlen
    rw [toWorkspaceItem_description mp v hname]
    have hfv : formatValue v.value mp = s := by
      simp [formatValue, hval, Nat.not_lt.mpr hlen]
    rw [hfv]
    rcases hcls with hc | hc <;>
      simp [getDescription, hc, jsTruthy, isEmpty_false_of_ne hs]
  · intro hlong
    rw [toWorkspaceItem_description mp v hname]
    have hfv : formatValue v.value mp = takeChars s 97 ++ "..." := by
      simp [formatValue, hval, hlong]
    rw [hfv]
    have hne := isEmpty_false_of_ne (string_append_dots_ne (takeChars s 97))
    rcases hcls with hc | hc <;>
      simp [getDescription, hc, jsTruthy, hne]

theorem char_value_display_witness :
    (toWorkspaceItem 5 ⟨"s", "[1 5]", "char", some (.prim "hello")⟩).description = some "hello" :=
  (char_value_display ⟨"s", "[1 5]", "char", some (.prim "hello")⟩ "hello" 5
      (by decide) (Or.inl rfl) rfl).1 (by decide) (by decide)

/-- C4 counterexample: a 2x3 record of class char displays its value "abcdef",
not the "2x3 char" summary the claim requires of every record with N, M > 1,
because char/string classes always take the show-the-value branch. -/
theorem char_matrix_shows_value_cex :
    ((getChildren none
        (.parsed ⟨some [⟨"c", "[2 3]", "char", some (.prim "abcdef")⟩], some "t"⟩) 5).map
          (fun it => it.description)) = [some "abcdef"]
    ∧ ("abcdef" : String) ≠ "2x3 char" :=
  ⟨rfl, by decide⟩

/-- C4 amended: for a record with nonempty name, class neither 'char' nor
'string', a nonempty string value `s` of at most 100 characters, and a size
matching '[N M]': if N = M = 1 and the class is not 'struct' or 'cell' the
description is `s` itself, and if N > 1 and M > 1 it is the "NxM class"
summary (char/string-class records instead always display their value). The
concrete example snapshot with variable x, size [1 1], class double, value 5
produces exactly one entry labelled "x" with description "5". -/
theorem scalar_and_matrix_description (v : MatlabVariable) (s : String) (rows cols mp : Nat)
    (hname : v.name ≠ "") (hval : v.value = some (.prim s)) (hs : s ≠ "")
    (hlen : s.length ≤ 100)
    (hcls : v.«class» ≠ "char" ∧ v.«class» ≠ "string")
    (hsize : sizeMatch2D v.size = some (rows, cols)) :
    (rows = 1 → cols = 1 → v.«class» ≠ "struct" → v.«class» ≠ "cell" →
        (toWorkspaceItem mp v).description = some s)
    ∧ (1 < rows → 1 < cols →
        (toWorkspaceItem mp v).description
          = some (toString rows ++ "x" ++ toString cols ++ " " ++ v.«class»))
    ∧ ((getChildren none
          (.parsed ⟨some [⟨"x", "[1 1]", "double", some (.prim "5")⟩], some "t"⟩) 5).map
            (fun it => (it.label, it.description))) = [("x", some "5")] := by
  have hszne : v.size ≠ "" := sizeMatch2D_ne_empty hsize
  have hfv : formatValue v.value mp = s := by
    simp [formatValue, hval, Nat.not_lt.mpr hlen]
  refine ⟨?_, ?_, rfl⟩
  · intro h1 h2 hns hnc
    subst h1; subst h2
    rw [toWorkspaceItem_description mp v hname, hfv]
    simp [getDescription, jsTruthy, String.isEmpty_iff, hs, hszne, hsize,
      hcls.1, hcls.2, hns, hnc]
  · intro h1 h2
    rw [toWorkspaceItem_description mp v hname, hfv]
    have hr : rows ≠ 1 := by omega
    simp [getDescription, jsTruthy, String.isEmpty_iff, hs, hszne, hsize,
      hcls.1, hcls.2, hr, jsStr]

theorem scalar_and_matrix_description_witness :
    (toWorkspaceItem 5 ⟨"x", "[1 1]", "double", some (.prim "5")⟩).description = some "5"
    ∧ (toWorkspaceItem 5 ⟨"m", "[2 3]", "double", some (.prim "1 2 3; 4 5 6")⟩).description
        = some "2x3 double" :=
  ⟨(scalar_and_matrix_description ⟨"x", "[1 1]", "double", some (.prim "5")⟩ "5" 1 1 5
      (by decide) rfl (by decide) (by decide) ⟨by decide, by decide⟩ (by decide)).1
      rfl rfl (by decide) (by decide),
   (scalar_and_matrix_description ⟨"m", "[2 3]", "double", some (.prim "1 2 3; 4 5 6")⟩
      "1 2 3; 4 5 6" 2 3 5
      (by decide) rfl (by decide) (by decide) ⟨by decide, by decide⟩ (by decide)).2.1
      (by decide) (by decide)⟩

/-- C10 counterexample: a record with a defined (empty-string) value and the
three-dimensional size "[2 3 4]" displays the "size class" fallback
"[2 3 4] double", not its formatted value (which is the empty string). -/
theorem threeDim_empty_value_cex :
    ((getChildren none
        (.parsed ⟨some [⟨"z", "[2 3 4]", "double", some (.prim "")⟩], some "t"⟩) 5).map
          (fun it => it.description)) = [some "[2 3 4] double"]
    ∧ ("[2 3 4] double" : String) ≠ "" :=
  ⟨rfl, by decide⟩

/-- C10 amended: for a record with nonempty name, class neither 'char' nor
'string', and a size in which the pattern '[N M]' does not occur, the
description is the formatted value whenever that is nonempty, and the
"size class" fallback when the value is absent or formats to the empty string;
no "rows x cols class" summary branch is reachable. -/
theorem no_summary_without_2d_size (v : MatlabVariable) (mp : Nat)
    (hname : v.name ≠ "") (hcls : v.«class» ≠ "char" ∧ v.«class» ≠ "string")
    (hsize : sizeMatch2D v.size = none) :
    (formatValue v.value mp ≠ "" →
        (toWorkspaceItem mp v).description = some (formatValue v.value mp))
    ∧ (formatValue v.value mp = "" →
        (toWorkspaceItem mp v).description = some (v.size ++ " " ++ v.«class»)) := by
  constructor <;> intro h <;> rw [toWorkspaceItem_description mp v hname]
  · by_cases hsz : v.size = "" <;>
      simp [getDescription, jsTruthy, isEmpty_false_of_ne h, hsz, hsize,
        hcls.1, hcls.2, jsStr, isEmpty_false_of_ne,
        show ("" : String).isEmpty = true from rfl]
  · simp [getDescription, jsTruthy, h, hcls.1, hcls.2, jsStr,
      show ("" : String).isEmpty = true from rfl]

theorem no_summary_without_2d_size_witness :
    (toWorkspaceItem 5 ⟨"z", "[2 3 4]", "double", some (.prim "1 2")⟩).description
        = some "1 2" :=
  (no_summary_without_2d_size ⟨"z", "[2 3 4]", "double", some (.prim "1 2")⟩ 5
      (by decide) ⟨by decide, by decide⟩ (by decide)).1 (by decide)

/-- A 101-character text value, for exercising the producer's truncation. -/
def longA : String := String.mk (List.replicate 101 'a')

/-- C6 counterexample: a char vector of 101 characters is exported as its
first 100 characters plus "...", which is 103 characters, not "a truncation of
the original text to at most 100 characters total". -/
theorem exported_text_truncation_cex :
    longA.length = 101
    ∧ (exportedValueField (.charRow longA)).length = 103
    ∧ ¬ (exportedValueField (.charRow longA)).length ≤ 100 := by
  refine ⟨by decide, by decide, by decide⟩

/-- C6 amended: the producer emits, for numeric/logical values, the exact
`mat2str` printout when the element count is at most 10 and a
"class [N elements]" summary string otherwise; and for text values, the text
verbatim when its length is at most 100, and otherwise its first 100
characters followed by "..." — 103 characters in total, not at most 100. -/
theorem exportedValueField_spec (cls printed s : String) (n : Nat) :
    (n ≤ 10 → exportedValueField (.numericOrLogical cls n printed) = printed)
    ∧ (10 < n → exportedValueField (.numericOrLogical cls n printed)
        = cls ++ " [" ++ toString n ++ " elements]")
    ∧ (s.length ≤ 100 → exportedValueField (.charRow s) = s)
    ∧ (100 < s.length →
        exportedValueField (.charRow s) = takeChars s 100 ++ "..."
        ∧ (exportedValueField (.charRow s)).length = 103) := by
  refine ⟨fun h => ?_, fun h => ?_, fun h => ?_, fun h => ?_⟩
  · simp [exportedValueField, h]
  · simp [exportedValueField, Nat.not_le.mpr h]
  · simp [exportedValueField, h]
  · have he : exportedValueField (.charRow s) = takeChars s 100 ++ "..." := by
      simp [exportedValueField, Nat.not_le.mpr h]
    refine ⟨he, ?_⟩
    rw [he, String.length_append, takeChars_length]
    have hm : min 100 s.length = 100 := by omega
    rw [hm]
    rfl

theorem exportedValueField_spec_witness :
    exportedValueField (.numericOrLogical "double" 3 "[1 2 3]") = "[1 2 3]"
    ∧ exportedValueField (.numericOrLogical "double" 50 "x") = "double [50 elements]"
    ∧ exportedValueField (.charRow "hi") = "hi"
    ∧ (exportedValueField (.charRow (String.mk (List.replicate 150 'b')))).length = 103 :=
  ⟨(exportedValueField_spec "double" "[1 2 3]" "" 3).1 (by decide),
   (exportedValueField_spec "double" "x" "" 50).2.1 (by decide),
   (exportedValueField_spec "" "" "hi" 0).2.2.1 (by decide),
   ((exportedValueField_spec "" "" (String.mk (List.replicate 150 'b')) 0).2.2.2
      (by simp [String.length])).2⟩

/-- C7: when a terminal whose lowercased name contains "matlab" is found,
`clearWorkspace` sends it exactly the text "clear all", `deleteVariable name`
sends exactly "clear name", and `triggerWorkspaceExport` sends exactly one
command, which ends in "export_workspace();"; when no such terminal exists,
each of the three operations performs exactly one user-visible message and
sends no command text at all. -/
theorem terminal_command_texts (terminals : List Terminal) (t : Terminal) (vname : String) :
    (findMatlabTerminal terminals = some t →
      sentCommands (clearWorkspace terminals) = [(t.name, "clear all")]
      ∧ sentCommands (deleteVariable terminals vname) = [(t.name, "clear " ++ vname)]
      ∧ sentCommands (triggerWorkspaceExport true terminals)
          = [(t.name, "addpath('.vscode'); export_workspace();")]
      ∧ strEndsWith "addpath('.vscode'); export_workspace();" "export_workspace();" = true)
    ∧ (findMatlabTerminal terminals = none →
      clearWorkspace terminals = [.showErrorMessage "No MATLAB terminal found"]
      ∧ deleteVariable terminals vname = [.showErrorMessage "No MATLAB terminal found"]
      ∧ triggerWorkspaceExport true terminals
          = [.showInformationMessage
              "No MATLAB terminal found. Please run MATLAB in the VSCode terminal first."]
      ∧ sentCommands (clearWorkspace terminals) = []
      ∧ sentCommands (deleteVariable terminals vname) = []
      ∧ sentCommands (triggerWorkspaceExport true terminals) = []) := by
  constructor <;> intro h
  · refine ⟨?_, ?_, ?_, by decide⟩ <;>
      simp [clearWorkspace, deleteVariable, triggerWorkspaceExport, sentCommands, h]
  · refine ⟨?_, ?_, ?_, ?_, ?_, ?_⟩ <;>
      simp [clearWorkspace, deleteVariable, triggerWorkspaceExport, sentCommands, h]

theorem terminal_command_texts_witness :
    sentCommands (clearWorkspace [⟨"bash"⟩, ⟨"MATLAB R2024a"⟩])
        = [("MATLAB R2024a", "clear all")]
    ∧ sentCommands (deleteVariable [⟨"bash"⟩, ⟨"MATLAB R2024a"⟩] "foo")
        = [("MATLAB R2024a", "clear foo")]
    ∧ clearWorkspace [⟨"bash"⟩, ⟨"zsh"⟩] = [.showErrorMessage "No MATLAB terminal found"] :=
  ⟨((terminal_command_texts [⟨"bash"⟩, ⟨"MATLAB R2024a"⟩] ⟨"MATLAB R2024a"⟩ "foo").1
      (by decide)).1,
   ((terminal_command_texts [⟨"bash"⟩, ⟨"MATLAB R2024a"⟩] ⟨"MATLAB R2024a"⟩ "foo").1
      (by decide)).2.1,
   ((terminal_command_texts [⟨"bash"⟩, ⟨"zsh"⟩] ⟨"unused"⟩ "foo").2 (by decide)).1⟩

/-- Completion oracle of the run in which the snapshot file never changes. -/
def neverComplete : Nat → Bool := fun _ => false

theorem countSends_cons_send (d : Nat) (l : List SetupAction) :
    countSends (.sendSetupCommand d :: l) = countSends l + 1 := by
  simp [countSends, List.filter]

theorem countSends_le (f : Nat → Bool) :
    ∀ n a c, maxAttempts - a ≤ n → countSends (trySendSetup f a c) ≤ n := by
  intro n
  induction n with
  | zero =>
    intro a c h
    have ha : maxAttempts ≤ a := by omega
    rw [trySendSetup, dif_pos (Or.inr ha)]
    by_cases hw : c = false ∧ maxAttempts ≤ a
    · rw [if_pos hw]
      simp [countSends]
    · rw [if_neg hw]
      simp [countSends]
  | succ n ih =>
    intro a c h
    rw [trySendSetup]
    by_cases hcond : c = true ∨ maxAttempts ≤ a
    · rw [dif_pos hcond]
      by_cases hw : c = false ∧ maxAttempts ≤ a
      · rw [if_pos hw]
        simp [countSends]
      · rw [if_neg hw]
        simp [countSends]
    · rw [dif_neg hcond]
      cases hf1 : f (a + 1) with
      | true => simp [hf1, countSends]
      | false =>
        simp only [hf1, Bool.false_eq_true, if_false, countSends_cons_send]
        have h2 : maxAttempts - (a + 1) ≤ n := by
          simp only [not_or] at hcond
          omega
        exact Nat.succ_le_succ (ih (a + 1) false h2)

theorem trySendSetup_never_full (f : Nat → Bool) (hf : ∀ k, f k = false) :
    trySendSetup f 0 false
      = [.sendSetupCommand 3000, .sendSetupCommand 4000, .sendSetupCommand 5000,
         .sendSetupCommand 6000, .sendSetupCommand 7000, .sendSetupCommand 8000,
         .sendSetupCommand 9000, .sendSetupCommand 10000, .sendSetupCommand 11000,
         .sendSetupCommand 12000, .showSetupWarning] := by
  have step : ∀ a, a < maxAttempts → trySendSetup f a false
      = .sendSetupCommand (2000 + (a + 1) * 1000) :: trySendSetup f (a + 1) false := by
    intro a ha
    have hcond : ¬ (false = true ∨ maxAttempts ≤ a) := by
      simp only [not_or]
      exact ⟨by simp, by omega⟩
    rw [trySendSetup, dif_neg hcond]
    simp [hf (a + 1)]
  have last : ∀ a, maxAttempts ≤ a → trySendSetup f a false = [.showSetupWarning] := by
    intro a ha
    rw [trySendSetup, dif_pos (Or.inr ha)]
    rw [if_pos ⟨rfl, ha⟩]
  rw [step 0 (by decide)]
  norm_num
  rw [step 1 (by decide)]
  norm_num
  rw [step 2 (by decide)]
  norm_num
  rw [step 3 (by decide)]
  norm_num
  rw [step 4 (by decide)]
  norm_num
  rw [step 5 (by decide)]
  norm_num
  rw [step 6 (by decide)]
  norm_num
  rw [step 7 (by decide)]
  norm_num
  rw [step 8 (by decide)]
  norm_num
  rw [step 9 (by decide)]
  norm_num
  rw [last 10 (by decide)]

/-- C9 counterexample: the delays of the auto-setup retry loop are not fixed:
when setup is never detected complete, the ten setup commands are scheduled
after 3000, 4000, ..., 12000 ms, and already the first two delays differ. -/
theorem setup_delays_not_fixed_cex :
    sendDelays (trySendSetup neverComplete 0 false)
      = [3000, 4000, 5000, 6000, 7000, 8000, 9000, 10000, 11000, 12000]
    ∧ (3000 : Nat) ≠ 4000 := by
  constructor
  · rw [trySendSetup_never_full neverComplete (fun _ => rfl)]
    rfl
  · decide

/-- C9 amended: the auto-setup retry loop is bounded: at most `maxAttempts`
(= 10) setup commands are ever sent, the loop performs nothing once setup is
already detected complete, and when the snapshot file never changes it sends
exactly ten commands with linearly increasing delays 2000 + k*1000 for
k = 1..10 (3 s, 4 s, ..., 12 s — not a fixed delay) and then shows the
auto-setup-failed warning instead of retrying further. -/
theorem trySendSetup_bounded (completedAt : Nat → Bool) :
    countSends (trySendSetup completedAt 0 false) ≤ maxAttempts
    ∧ trySendSetup completedAt 0 true = []
    ∧ ((∀ k, completedAt k = false) →
        trySendSetup completedAt 0 false
          = [.sendSetupCommand 3000, .sendSetupCommand 4000, .sendSetupCommand 5000,
             .sendSetupCommand 6000, .sendSetupCommand 7000, .sendSetupCommand 8000,
             .sendSetupCommand 9000, .sendSetupCommand 10000, .sendSetupCommand 11000,
             .sendSetupCommand 12000, .showSetupWarning]) := by
  refine ⟨countSends_le completedAt maxAttempts 0 false (by omega), ?_, ?_⟩
  · rw [trySendSetup, dif_pos (Or.inl rfl)]
    rw [if_neg (fun hw => Bool.noConfusion hw.1)]
  · intro hf
    exact trySendSetup_never_full completedAt hf

theorem trySendSetup_bounded_witness :
    trySendSetup neverComplete 0 true = []
    ∧ trySendSetup neverComplete 0 false
        = [.sendSetupCommand 3000, .sendSetupCommand 4000, .sendSetupCommand 5000,
           .sendSetupCommand 6000, .sendSetupCommand 7000, .sendSetupCommand 8000,
           .sendSetupCommand 9000, .sendSetupCommand 10000, .sendSetupCommand 11000,
           .sendSetupCommand 12000, .showSetupWarning] :=
  ⟨(trySendSetup_bounded neverComplete).2.1,
   (trySendSetup_bounded neverComplete).2.2 (fun _ => rfl)⟩

end MatlabViewer
